import Mathlib

/-!
Verification of the Business Explorer enrichment pipeline and scoring engine.

Shallow embedding of the Python sources:
  app.py               (calcular_puntuacion, the scoring engine)
  p1_busqueda_local.py (geocodificar_inteligente, busqueda)
  p2_competencia.py    (busqueda_competencia row processing)
  p3_reputacion.py     (buscar_nota_duckduckgo, analizar_reputacion)
  p4_transporte.py     (analizar_transporte row processing)

Modelling conventions:
  - Python floats are modelled as rationals (ℚ).  All constants appearing in
    the code (0.40, 0.5, 3.8, ...) are exactly representable and all
    comparisons performed by the code are at distances where IEEE rounding
    cannot flip the outcome, so the rational model is exact.
  - Python round(x, 2) is modelled as rounding x*100 to an integer and
    dividing by 100 (round2 below).
  - External services (geocoders, Overpass, DuckDuckGo page bodies, CityBikes)
    are oracles: explicit function parameters.  A query that fails or returns
    nothing is the oracle returning none.
  - The haversine distance is real-valued in the code; it enters the claims
    only as an opaque predicate, so it is an oracle parameter as well.
-/

namespace BusinessExplorer

/-! ## List minimum / maximum (Python max(...) / min(...) over a list) -/

def listMax {α : Type} [LinearOrder α] : List α → Option α :=
  List.foldr (fun x m => some (match m with | none => x | some y => max x y)) none

def listMin {α : Type} [LinearOrder α] : List α → Option α :=
  List.foldr (fun x m => some (match m with | none => x | some y => min x y)) none

theorem listMax_cons {α : Type} [LinearOrder α] (x : α) (l : List α) :
    listMax (x :: l) = some (match listMax l with | none => x | some y => max x y) := rfl

theorem listMin_cons {α : Type} [LinearOrder α] (x : α) (l : List α) :
    listMin (x :: l) = some (match listMin l with | none => x | some y => min x y) := rfl

theorem le_listMax {α : Type} [LinearOrder α] {x : α} {l : List α} (hx : x ∈ l) :
    ∃ M, listMax l = some M ∧ x ≤ M := by
  induction l with
  | nil => cases hx
  | cons a t ih =>
      rw [listMax_cons]
      rcases List.mem_cons.mp hx with h | h
      · subst h
        cases ht : listMax t with
        | none => exact ⟨x, by simp [ht], le_refl x⟩
        | some y => exact ⟨max x y, by simp [ht], le_max_left x y⟩
      · obtain ⟨M, hM, hxM⟩ := ih h
        exact ⟨max a M, by simp [hM], hxM.trans (le_max_right a M)⟩

theorem listMin_le {α : Type} [LinearOrder α] {x : α} {l : List α} (hx : x ∈ l) :
    ∃ m, listMin l = some m ∧ m ≤ x := by
  induction l with
  | nil => cases hx
  | cons a t ih =>
      rw [listMin_cons]
      rcases List.mem_cons.mp hx with h | h
      · subst h
        cases ht : listMin t with
        | none => exact ⟨x, by simp [ht], le_refl x⟩
        | some y => exact ⟨min x y, by simp [ht], min_le_left x y⟩
      · obtain ⟨m, hm, hmx⟩ := ih h
        exact ⟨min a m, by simp [hm], (min_le_right a m).trans hmx⟩

theorem listMax_mem {α : Type} [LinearOrder α] {M : α} {l : List α}
    (hM : listMax l = some M) : M ∈ l := by
  induction l generalizing M with
  | nil => simp [listMax] at hM
  | cons a t ih =>
      rw [listMax_cons] at hM
      cases ht : listMax t with
      | none => rw [ht] at hM; simp at hM; exact hM ▸ List.mem_cons_self a t
      | some y =>
          rw [ht] at hM
          simp only [Option.some.injEq] at hM
          rcases max_choice a y with hc | hc
          · rw [hc] at hM; exact hM ▸ List.mem_cons_self a t
          · rw [hc] at hM; exact List.mem_cons_of_mem a (hM ▸ ih ht)

theorem listMax_eq_of_mem_of_le {α : Type} [LinearOrder α] {x : α} {l : List α}
    (hx : x ∈ l) (hub : ∀ y ∈ l, y ≤ x) : listMax l = some x := by
  obtain ⟨M, hM, hxM⟩ := le_listMax hx
  have hMx : M ≤ x := hub M (listMax_mem hM)
  rw [hM, le_antisymm hMx hxM]

theorem listMax_perm {α : Type} [LinearOrder α] {l l' : List α} (h : l.Perm l') :
    listMax l = listMax l' := by
  induction h with
  | nil => rfl
  | cons x h ih => rw [listMax_cons, listMax_cons, ih]
  | swap x y l =>
      rw [listMax_cons, listMax_cons, listMax_cons, listMax_cons]
      cases listMax l with
      | none => simp [max_comm]
      | some z => simp [max_left_comm]
  | trans h1 h2 ih1 ih2 => exact ih1.trans ih2

theorem listMin_perm {α : Type} [LinearOrder α] {l l' : List α} (h : l.Perm l') :
    listMin l = listMin l' := by
  induction h with
  | nil => rfl
  | cons x h ih => rw [listMin_cons, listMin_cons, ih]
  | swap x y l =>
      rw [listMin_cons, listMin_cons, listMin_cons, listMin_cons]
      cases listMin l with
      | none => simp [min_comm]
      | some z => simp [min_left_comm]
  | trans h1 h2 ih1 ih2 => exact ih1.trans ih2

/-! ## Rounding: Python round(x, 2) -/

/-- Python round(x, 2): round x*100 to an integer, divide by 100.  (Python uses
round-half-to-even on the binary float; the tie-breaking mode is irrelevant to
every property proved here, so the Mathlib round is used.) -/
def round2 (x : ℚ) : ℚ := ((round (x * 100) : ℤ) : ℚ) / 100

theorem round2_bounds {x : ℚ} (hlo : -2 ≤ x) (hhi : x ≤ 10) :
    -2 ≤ round2 x ∧ round2 x ≤ 10 := by
  have h1 : round (x * 100) ≤ 1000 := by
    have h : round (x * 100) ≤ round ((1000 : ℚ)) := by
      rw [round_eq, round_eq]; exact Int.floor_mono (by linarith)
    have e : round ((1000 : ℚ)) = 1000 := by norm_num [round_eq]
    rw [e] at h; exact h
  have h2 : -200 ≤ round (x * 100) := by
    have h : round ((-200 : ℚ)) ≤ round (x * 100) := by
      rw [round_eq, round_eq]; exact Int.floor_mono (by linarith)
    have e : round ((-200 : ℚ)) = -200 := by norm_num [round_eq]
    rw [e] at h; exact h
  unfold round2
  constructor
  · rw [le_div_iff₀ (by norm_num : (0:ℚ) < 100)]
    have h : ((-200 : ℤ) : ℚ) ≤ ((round (x * 100) : ℤ) : ℚ) := by exact_mod_cast h2
    push_cast at h ⊢
    linarith
  · rw [div_le_iff₀ (by norm_num : (0:ℚ) < 100)]
    have h : ((round (x * 100) : ℤ) : ℚ) ≤ ((1000 : ℤ) : ℚ) := by exact_mod_cast h1
    push_cast at h ⊢
    linarith

/-! ## Scoring engine (app.py, calcular_puntuacion, lines 73-143)

A row of the fully enriched DataFrame carries the columns the scoring loop
reads: PRECIO, NUM_TRANS_PUB = (bus, metro, bici) and
NUM_COMPETENCIA = (total, buenos, malos, nota_media). -/

structure Fila where
  precio : ℚ
  numTransPub : ℕ × ℕ × ℕ
  numCompetencia : ℕ × ℕ × ℕ × ℚ
deriving DecidableEq

/-- Line 90-92: max(precios) if precios else presupuesto_max. -/
def maxPrecio (presupuestoMax : ℚ) (df : List Fila) : ℚ :=
  (listMax (df.map Fila.precio)).getD presupuestoMax

/-- Line 92: min(precios) if precios else 0. -/
def minPrecio (df : List Fila) : ℚ :=
  (listMin (df.map Fila.precio)).getD 0

/-- Line 97: val = (t[0] * 1) + (t[1] * 3) + (t[2] * 1). -/
def rawTrans (f : Fila) : ℕ :=
  f.numTransPub.1 * 1 + f.numTransPub.2.1 * 3 + f.numTransPub.2.2 * 1

/-- Line 99: max(scores_transporte) if scores_transporte and max(...) > 0 else 1. -/
def maxTransporte (df : List Fila) : ℚ :=
  match listMax (df.map rawTrans) with
  | some m => if 0 < m then (m : ℚ) else 1
  | none => 1

/-- Line 105: val = (malos * 2) + (total * 0.5) - (buenos * 3). -/
def rawOport (f : Fila) : ℚ :=
  (f.numCompetencia.2.2.1 : ℚ) * 2 + (f.numCompetencia.1 : ℚ) * (1/2)
    - (f.numCompetencia.2.1 : ℚ) * 3

/-- Line 108: max(scores_oportunidad) if scores_oportunidad else 1. -/
def maxOport (df : List Fila) : ℚ := (listMax (df.map rawOport)).getD 1

/-- Line 109: min(scores_oportunidad) if scores_oportunidad else 0. -/
def minOport (df : List Fila) : ℚ := (listMin (df.map rawOport)).getD 0

/-- Line 110: max_oport - min_oport if max_oport != min_oport else 1. -/
def rangoOport (df : List Fila) : ℚ :=
  if maxOport df ≠ minOport df then maxOport df - minOport df else 1

/-- Lines 116-119: 10 if all prices equal, else 10*(max-p)/(max-min). -/
def notaPrecio (presupuestoMax : ℚ) (df : List Fila) (f : Fila) : ℚ :=
  if maxPrecio presupuestoMax df = minPrecio df then 10
  else 10 * (maxPrecio presupuestoMax df - f.precio)
         / (maxPrecio presupuestoMax df - minPrecio df)

/-- Line 123: nota_conec = 10 * (raw_trans / max_transporte). -/
def notaConec (df : List Fila) (f : Fila) : ℚ :=
  10 * ((rawTrans f : ℚ) / maxTransporte df)

/-- Line 127: nota_oport = 10 * ((raw_oport - min_oport) / rango_oport). -/
def notaOport (df : List Fila) (f : Fila) : ℚ :=
  10 * ((rawOport f - minOport df) / rangoOport df)

/-- Lines 129-140: dynamic weighting on this row's competition total, and
round(nota_final, 2).  The weights 0.40 / 0.30 / 0.50 are written as exact
rationals. -/
def notaFinal (presupuestoMax : ℚ) (df : List Fila) (f : Fila) : ℚ :=
  if 0 < f.numCompetencia.1 then
    round2 (notaPrecio presupuestoMax df f * (40/100)
      + notaOport df f * (30/100) + notaConec df f * (30/100))
  else
    round2 (notaPrecio presupuestoMax df f * (50/100)
      + notaConec df f * (50/100) - 2)

/-- Lines 86-143: the NOTA_FINAL column, in row order. -/
def calcularPuntuacion (presupuestoMax : ℚ) (df : List Fila) : List ℚ :=
  df.map (notaFinal presupuestoMax df)

/-! ### Bounds of the three normalized component scores -/

theorem notaPrecio_bounds (p : ℚ) (df : List Fila) (f : Fila) (hf : f ∈ df) :
    0 ≤ notaPrecio p df f ∧ notaPrecio p df f ≤ 10 := by
  have hmem : f.precio ∈ df.map Fila.precio := List.mem_map_of_mem Fila.precio hf
  obtain ⟨M, hM, hxM⟩ := le_listMax hmem
  obtain ⟨m, hm, hmx⟩ := listMin_le hmem
  have hMax : maxPrecio p df = M := by rw [maxPrecio, hM]; rfl
  have hMin : minPrecio df = m := by rw [minPrecio, hm]; rfl
  unfold notaPrecio
  rw [hMax, hMin]
  by_cases hc : M = m
  · simp [hc]
  · rw [if_neg hc]
    have hlt : m < M := lt_of_le_of_ne (hmx.trans hxM) (Ne.symm hc)
    have hden : (0:ℚ) < M - m := by linarith
    constructor
    · apply div_nonneg _ (le_of_lt hden)
      linarith
    · rw [mul_div_assoc]
      have : (M - f.precio) / (M - m) ≤ 1 := by
        rw [div_le_one hden]; linarith
      linarith

theorem notaConec_bounds (df : List Fila) (f : Fila) (hf : f ∈ df) :
    0 ≤ notaConec df f ∧ notaConec df f ≤ 10 := by
  have hmem : rawTrans f ∈ df.map rawTrans := List.mem_map_of_mem rawTrans hf
  obtain ⟨M, hM, hxM⟩ := le_listMax hmem
  unfold notaConec maxTransporte
  rw [hM]
  dsimp only
  by_cases hpos : 0 < M
  · rw [if_pos hpos]
    have hM0 : (0:ℚ) < (M:ℚ) := by exact_mod_cast hpos
    constructor
    · positivity
    · have : ((rawTrans f : ℚ)) / (M:ℚ) ≤ 1 := by
        rw [div_le_one hM0]; exact_mod_cast hxM
      linarith
  · rw [if_neg hpos]
    have hz : rawTrans f = 0 := by omega
    rw [hz]
    norm_num

theorem notaOport_bounds (df : List Fila) (f : Fila) (hf : f ∈ df) :
    0 ≤ notaOport df f ∧ notaOport df f ≤ 10 := by
  have hmem : rawOport f ∈ df.map rawOport := List.mem_map_of_mem rawOport hf
  obtain ⟨M, hM, hxM⟩ := le_listMax hmem
  obtain ⟨m, hm, hmx⟩ := listMin_le hmem
  have hMax : maxOport df = M := by rw [maxOport, hM]; rfl
  have hMin : minOport df = m := by rw [minOport, hm]; rfl
  unfold notaOport rangoOport
  rw [hMax, hMin]
  by_cases hc : M = m
  · rw [if_neg (by simpa using hc)]
    have : rawOport f = m := le_antisymm (hc ▸ hxM) hmx
    rw [this]
    norm_num
  · rw [if_pos (by simpa using hc)]
    have hlt : m < M := lt_of_le_of_ne (hmx.trans hxM) (Ne.symm hc)
    have hden : (0:ℚ) < M - m := by linarith
    constructor
    · apply mul_nonneg (by norm_num)
      apply div_nonneg _ (le_of_lt hden)
      linarith
    · have : (rawOport f - m) / (M - m) ≤ 1 := by
        rw [div_le_one hden]; linarith
      linarith

/-- C1: in calcular_puntuacion, a candidate whose competition total is
positive gets round2 of price×0.40 + opportunity×0.30 + connectivity×0.30 and
a candidate whose total is 0 gets round2 of price×0.50 + connectivity×0.50 − 2;
the two formulas are mutually exclusive on the competition total. -/
theorem ponderacion_dinamica (p : ℚ) (df : List Fila) (f : Fila) :
    (0 < f.numCompetencia.1 →
      notaFinal p df f
        = round2 (notaPrecio p df f * (40/100) + notaOport df f * (30/100)
            + notaConec df f * (30/100))) ∧
    (f.numCompetencia.1 = 0 →
      notaFinal p df f
        = round2 (notaPrecio p df f * (50/100) + notaConec df f * (50/100) - 2)) := by
  constructor
  · intro h; rw [notaFinal, if_pos h]
  · intro h; rw [notaFinal, if_neg (by omega)]

def filaConComp : Fila := ⟨100, (2, 1, 0), (3, 1, 2, 41/10)⟩

def filaSinComp : Fila := ⟨100, (2, 1, 0), (0, 0, 0, 0)⟩

theorem ponderacion_dinamica_witness :
    notaFinal 500 [filaConComp] filaConComp
      = round2 (notaPrecio 500 [filaConComp] filaConComp * (40/100)
          + notaOport [filaConComp] filaConComp * (30/100)
          + notaConec [filaConComp] filaConComp * (30/100)) ∧
    notaFinal 500 [filaSinComp] filaSinComp
      = round2 (notaPrecio 500 [filaSinComp] filaSinComp * (50/100)
          + notaConec [filaSinComp] filaSinComp * (50/100) - 2) :=
  ⟨(ponderacion_dinamica 500 [filaConComp] filaConComp).1 (by decide),
   (ponderacion_dinamica 500 [filaSinComp] filaSinComp).2 (by decide)⟩

theorem notaFinal_bounds (p : ℚ) (df : List Fila) (f : Fila) (hf : f ∈ df) :
    -2 ≤ notaFinal p df f ∧ notaFinal p df f ≤ 10 := by
  obtain ⟨hp0, hp10⟩ := notaPrecio_bounds p df f hf
  obtain ⟨hc0, hc10⟩ := notaConec_bounds df f hf
  obtain ⟨ho0, ho10⟩ := notaOport_bounds df f hf
  unfold notaFinal
  split
  · exact round2_bounds (by linarith) (by linarith)
  · exact round2_bounds (by linarith) (by linarith)

def dfC5 : List Fila := [⟨100, (1, 0, 0), (1, 0, 0, 0)⟩, ⟨200, (0, 0, 0), (0, 0, 0, 0)⟩]

/-- C5 counterexample: on the concrete enriched set dfC5 the scoring engine
emits the score −2 for the second candidate (worst price, no transport, no
competition), so the emitted final score is not always between 0 and 10. -/
theorem puntuacion_rango_contraejemplo :
    (-2 : ℚ) ∈ calcularPuntuacion 1000 dfC5 ∧ ¬ (0 ≤ (-2 : ℚ)) := by
  constructor
  · have hB : notaFinal 1000 dfC5 ⟨200, (0, 0, 0), (0, 0, 0, 0)⟩ = -2 := by
      norm_num [notaFinal, notaPrecio, notaConec, maxPrecio, minPrecio,
        maxTransporte, rawTrans, dfC5, listMax, listMin, max_def, min_def,
        round2, round_eq]
    have hmem : (⟨200, (0, 0, 0), (0, 0, 0, 0)⟩ : Fila) ∈ dfC5 := by
      simp [dfC5]
    exact hB ▸ List.mem_map_of_mem _ hmem
  · norm_num

/-- C5 (amended): every final score the scoring engine emits lies between −2
and 10; the −2 floor is reached exactly by the no-competition branch. -/
theorem puntuacion_final_acotada (p : ℚ) (df : List Fila) (s : ℚ)
    (hs : s ∈ calcularPuntuacion p df) : -2 ≤ s ∧ s ≤ 10 := by
  obtain ⟨f, hf, rfl⟩ := List.mem_map.mp hs
  exact notaFinal_bounds p df f hf

def dfW5 : List Fila := [⟨100, (0, 0, 0), (0, 0, 0, 0)⟩]

theorem puntuacion_final_acotada_witness :
    -2 ≤ (3 : ℚ) ∧ (3 : ℚ) ≤ 10 := by
  have hval : notaFinal 1000 dfW5 ⟨100, (0, 0, 0), (0, 0, 0, 0)⟩ = 3 := by
    norm_num [notaFinal, notaPrecio, notaConec, maxPrecio, minPrecio,
      maxTransporte, rawTrans, dfW5, listMax, listMin, max_def, min_def,
      round2, round_eq]
  have hmem : (3 : ℚ) ∈ calcularPuntuacion 1000 dfW5 := by
    have : (⟨100, (0, 0, 0), (0, 0, 0, 0)⟩ : Fila) ∈ dfW5 := by simp [dfW5]
    exact hval ▸ List.mem_map_of_mem _ this
  exact puntuacion_final_acotada 1000 dfW5 3 hmem

/-- C6: the connectivity raw value is bus×1 + rail×3 + bike×1, the normalized
score is 10 × raw / max with the set maximum treated as 1 when it is 0, and a
candidate with (2 bus, 1 rail, 0 bike) whose raw value 5 is the set maximum
gets normalized connectivity 10. -/
theorem conectividad_correcta (df : List Fila) (f : Fila) (hf : f ∈ df) :
    rawTrans f = f.numTransPub.1 * 1 + f.numTransPub.2.1 * 3 + f.numTransPub.2.2 * 1 ∧
    notaConec df f = 10 * ((rawTrans f : ℚ) / maxTransporte df) ∧
    ((∀ g ∈ df, rawTrans g = 0) → maxTransporte df = 1) ∧
    (f.numTransPub = (2, 1, 0) → (∀ g ∈ df, rawTrans g ≤ 5) → notaConec df f = 10) := by
  refine ⟨rfl, rfl, ?_, ?_⟩
  · intro hz
    have hf0 : rawTrans f = 0 := hz f hf
    have hmax : listMax (df.map rawTrans) = some 0 := by
      apply listMax_eq_of_mem_of_le
      · exact hf0 ▸ List.mem_map_of_mem rawTrans hf
      · intro y hy
        obtain ⟨g, hg, rfl⟩ := List.mem_map.mp hy
        exact le_of_eq (hz g hg)
    rw [maxTransporte, hmax]
    norm_num
  · intro htup hub
    have hraw : rawTrans f = 5 := by rw [rawTrans, htup]; rfl
    have hmax : listMax (df.map rawTrans) = some 5 := by
      apply listMax_eq_of_mem_of_le
      · exact hraw ▸ List.mem_map_of_mem rawTrans hf
      · intro y hy
        obtain ⟨g, hg, rfl⟩ := List.mem_map.mp hy
        exact hub g hg
    rw [notaConec, maxTransporte, hmax, hraw]
    norm_num

def dfW6 : List Fila := [⟨100, (2, 1, 0), (0, 0, 0, 0)⟩, ⟨150, (0, 1, 0), (1, 0, 1, 2)⟩]

theorem conectividad_correcta_witness :
    notaConec dfW6 ⟨100, (2, 1, 0), (0, 0, 0, 0)⟩ = 10 :=
  (conectividad_correcta dfW6 ⟨100, (2, 1, 0), (0, 0, 0, 0)⟩
      (List.mem_cons_self _ _)).2.2.2 rfl
    (by
      intro g hg
      rcases List.mem_cons.mp hg with h | h
      · subst h; decide
      · rcases List.mem_cons.mp h with h2 | h2
        · subst h2; decide
        · cases h2)

/-- C8: the final score of a candidate depends only on its own row and the
set-wide aggregates, so scoring a permuted candidate list assigns every
candidate the same final score as the original list. -/
theorem puntuacion_invariante_permutacion (p : ℚ) {l l' : List Fila}
    (h : l.Perm l') (f : Fila) : notaFinal p l f = notaFinal p l' f := by
  have hmaxP : maxPrecio p l = maxPrecio p l' := by
    unfold maxPrecio; rw [listMax_perm (h.map Fila.precio)]
  have hminP : minPrecio l = minPrecio l' := by
    unfold minPrecio; rw [listMin_perm (h.map Fila.precio)]
  have hmaxT : maxTransporte l = maxTransporte l' := by
    unfold maxTransporte; rw [listMax_perm (h.map rawTrans)]
  have hmaxO : maxOport l = maxOport l' := by
    unfold maxOport; rw [listMax_perm (h.map rawOport)]
  have hminO : minOport l = minOport l' := by
    unfold minOport; rw [listMin_perm (h.map rawOport)]
  unfold notaFinal notaPrecio notaConec notaOport rangoOport
  rw [hmaxP, hminP, hmaxT, hmaxO, hminO]

def filaW1 : Fila := ⟨100, (1, 0, 0), (1, 0, 0, 0)⟩

def filaW2 : Fila := ⟨250, (0, 2, 1), (4, 2, 1, 35/10)⟩

theorem puntuacion_invariante_permutacion_witness :
    notaFinal 1000 [filaW1, filaW2] filaW1 = notaFinal 1000 [filaW2, filaW1] filaW1 :=
  puntuacion_invariante_permutacion 1000 (List.Perm.swap filaW2 filaW1 []) filaW1

/-! ## Reputation resolver (p3_reputacion.py)

The rating patterns of buscar_nota_duckduckgo (lines 114-145) are embedded as
token lists.  Every pattern captures one group of the shape digit-[.,]-digit;
the matcher returns the two captured digits.  re.search semantics: the match
with the leftmost start position wins; the greedy optional whitespace is
resolved by backtracking, exactly as Python does. -/

inductive Tok where
  | dig : Tok
  | sep : Tok
  | lit : Char → Tok
  | optWs : Tok
deriving DecidableEq

def esDigito (c : Char) : Bool := '0' ≤ c ∧ c ≤ '9'

/-- Whitespace as matched by Python \s on this data (ASCII whitespace). -/
def esEspacio (c : Char) : Bool :=
  c = ' ' ∨ c = '\t' ∨ c = '\n' ∨ c = '\r' ∨ c = '\x0b' ∨ c = '\x0c'

/-- Case folding for re.IGNORECASE, covering every character that occurs in
the patterns (ASCII letters and the accented o of Puntuación / Valoración). -/
def plegarCaso (c : Char) : Char :=
  if 'A' ≤ c ∧ c ≤ 'Z' then Char.ofNat (c.toNat + 32)
  else if c = 'Ó' then 'ó' else c

/-- Match a token list at the start of the character list, returning the
captured digits.  optWs is greedy with backtracking, like \s? in re. -/
def casaAqui : List Tok → List Char → Option (List ℕ)
  | [], _ => some []
  | Tok.dig :: ts, c :: s =>
      if esDigito c then (casaAqui ts s).map (fun ds => (c.toNat - 48) :: ds)
      else none
  | Tok.sep :: ts, c :: s => if c = '.' ∨ c = ',' then casaAqui ts s else none
  | Tok.lit a :: ts, c :: s =>
      if plegarCaso c = plegarCaso a then casaAqui ts s else none
  | Tok.optWs :: ts, c :: s =>
      if esEspacio c then
        match casaAqui ts s with
        | some ds => some ds
        | none => casaAqui ts (c :: s)
      else casaAqui ts (c :: s)
  | Tok.optWs :: ts, [] => casaAqui ts []
  | _ :: _, [] => none

/-- re.search: try every start position from the left, first match wins. -/
def buscaPos (pat : List Tok) : List Char → Option (List ℕ)
  | [] => casaAqui pat []
  | c :: s' =>
      match casaAqui pat (c :: s') with
      | some ds => some ds
      | none => buscaPos pat s'

def lits (s : String) : List Tok := s.data.map Tok.lit

def patronSlash5 : List Tok :=
  [Tok.dig, Tok.sep, Tok.dig, Tok.optWs, Tok.lit '/', Tok.optWs, Tok.lit '5']

def patronDe5 : List Tok :=
  [Tok.dig, Tok.sep, Tok.dig, Tok.optWs] ++ lits "de" ++ [Tok.optWs, Tok.lit '5']

def patronPuntuacion : List Tok :=
  lits "Puntuación:" ++ [Tok.optWs, Tok.dig, Tok.sep, Tok.dig]

def patronValoracion : List Tok :=
  lits "Valoración:" ++ [Tok.optWs, Tok.dig, Tok.sep, Tok.dig]

def patronEstrellas : List Tok :=
  [Tok.dig, Tok.sep, Tok.dig, Tok.optWs] ++ lits "estrellas"

def patronRating : List Tok :=
  lits "Rating:" ++ [Tok.optWs, Tok.dig, Tok.sep, Tok.dig]

/-- Lines 116-123: the base-5 patterns, in source order. -/
def patronesBase5 : List (List Tok) :=
  [patronSlash5, patronDe5, patronPuntuacion, patronValoracion,
   patronEstrellas, patronRating]

def patronSlash10 : List Tok :=
  [Tok.dig, Tok.sep, Tok.dig, Tok.optWs, Tok.lit '/', Tok.optWs,
   Tok.lit '1', Tok.lit '0']

def patronDe10 : List Tok :=
  [Tok.dig, Tok.sep, Tok.dig, Tok.optWs] ++ lits "de" ++
    [Tok.optWs, Tok.lit '1', Tok.lit '0']

/-- Lines 135-138: the base-10 patterns, in source order. -/
def patronesBase10 : List (List Tok) := [patronSlash10, patronDe10]

/-- float(match.group(1).replace(",", ".")): the captured group is always
digit-separator-digit, so its value is d1 + d2/10. -/
def valorGrupo (ds : List ℕ) : ℚ :=
  match ds with
  | [d1, d2] => (d1 : ℚ) + (d2 : ℚ) / 10
  | _ => 0

/-- Lines 125-131 and 139-145: walk the pattern list in order; on the first
occurrence found for a pattern, keep it only if the converted value is in
[0, 5], otherwise move to the NEXT pattern.  divisor is 1 for the base-5
patterns and 2 for the base-10 patterns (nota = float(...) / 2). -/
def buscaLista (pats : List (List Tok)) (s : List Char) (divisor : ℚ) : Option ℚ :=
  match pats with
  | [] => none
  | p :: ps =>
      match buscaPos p s with
      | some ds =>
          let nota := valorGrupo ds / divisor
          if 0 ≤ nota ∧ nota ≤ 5 then some nota else buscaLista ps s divisor
      | none => buscaLista ps s divisor

/-- Lines 114-147: base-5 patterns first; only if none of them yields an
in-range rating are the base-10 patterns tried, halving the value. -/
def extraerNota (cuerpo : String) : Option ℚ :=
  match buscaLista patronesBase5 cuerpo.data 1 with
  | some nota => some nota
  | none => buscaLista patronesBase10 cuerpo.data 2

/-- Count of maximal nonempty runs of non-whitespace characters: the length
of Python's s.split().  The flag records whether the scan is inside a word. -/
def cuentaPalabras : List Char → Bool → ℕ
  | [], _ => 0
  | c :: s, dentro =>
      if esEspacio c then cuentaPalabras s false
      else (if dentro then 0 else 1) + cuentaPalabras s true

/-- Lines 64-82, limpiar_nombre_busqueda: names of fewer than two words get
the suffix " restaurante".  The code lower-cases the name before counting
len(n.split()); lowering does not change the word count, so the embedding
counts the words of the original name. -/
def limpiarNombreBusqueda (nombre : String) : String :=
  if cuentaPalabras nombre.data false < 2 then nombre ++ " restaurante"
  else nombre

/-- Lines 84-150, buscar_nota_duckduckgo: build the query, fetch the page
body (the oracle pagina; none models both a failed fetch and a failed body
extraction), then extract a rating from the visible text. -/
def buscarNotaDuckduckgo (pagina : String → Option String)
    (nombre cp : String) : Option ℚ :=
  let nombreBusqueda := limpiarNombreBusqueda nombre
  let query := nombreBusqueda ++ " " ++ cp ++ " opiniones"
  match pagina query with
  | none => none
  | some cuerpo => extraerNota cuerpo

theorem buscaLista_rango (pats : List (List Tok)) (s : List Char) (d : ℚ)
    (r : ℚ) (h : buscaLista pats s d = some r) : 0 ≤ r ∧ r ≤ 5 := by
  induction pats with
  | nil => simp [buscaLista] at h
  | cons p ps ih =>
      rw [buscaLista] at h
      cases hb : buscaPos p s with
      | none => rw [hb] at h; exact ih h
      | some ds =>
          rw [hb] at h
          dsimp only at h
          by_cases hr : 0 ≤ valorGrupo ds / d ∧ valorGrupo ds / d ≤ 5
          · rw [if_pos hr] at h
            cases h
            exact hr
          · rw [if_neg hr] at h
            exact ih h

/-- C3: the page text Valoración: 4,5 sobre 5 resolves to 4.5, the page text
9.2/10 resolves to 4.6 (no base-5 pattern matches it, the base-10 match is
halved), a base-5 match that is out of range such as 9.9/5 yields unresolved,
and every rating the extractor returns lies in [0, 5]. -/
theorem extraccion_patrones_reputacion :
    extraerNota "Valoración: 4,5 sobre 5" = some (45/10) ∧
    extraerNota "9.2/10" = some (46/10) ∧
    extraerNota "9.9/5" = none ∧
    (∀ cuerpo r, extraerNota cuerpo = some r → 0 ≤ r ∧ r ≤ 5) := by
  refine ⟨?_, ?_, ?_, ?_⟩
  · have h1 : buscaPos patronSlash5 "Valoración: 4,5 sobre 5".data = none := by decide
    have h2 : buscaPos patronDe5 "Valoración: 4,5 sobre 5".data = none := by decide
    have h3 : buscaPos patronPuntuacion "Valoración: 4,5 sobre 5".data = none := by decide
    have h4 : buscaPos patronValoracion "Valoración: 4,5 sobre 5".data = some [4, 5] := by decide
    rw [extraerNota]
    have hb : buscaLista patronesBase5 "Valoración: 4,5 sobre 5".data 1 = some (45/10) := by
      simp only [patronesBase5, buscaLista, h1, h2, h3, h4]
      norm_num [valorGrupo]
    rw [hb]
  · have h1 : buscaPos patronSlash5 "9.2/10".data = none := by decide
    have h2 : buscaPos patronDe5 "9.2/10".data = none := by decide
    have h3 : buscaPos patronPuntuacion "9.2/10".data = none := by decide
    have h4 : buscaPos patronValoracion "9.2/10".data = none := by decide
    have h5 : buscaPos patronEstrellas "9.2/10".data = none := by decide
    have h6 : buscaPos patronRating "9.2/10".data = none := by decide
    have h7 : buscaPos patronSlash10 "9.2/10".data = some [9, 2] := by decide
    rw [extraerNota]
    have hb5 : buscaLista patronesBase5 "9.2/10".data 1 = none := by
      simp only [patronesBase5, buscaLista, h1, h2, h3, h4, h5, h6]
    rw [hb5]
    simp only [patronesBase10, buscaLista, h7]
    norm_num [valorGrupo]
  · have h1 : buscaPos patronSlash5 "9.9/5".data = some [9, 9] := by decide
    have h2 : buscaPos patronDe5 "9.9/5".data = none := by decide
    have h3 : buscaPos patronPuntuacion "9.9/5".data = none := by decide
    have h4 : buscaPos patronValoracion "9.9/5".data = none := by decide
    have h5 : buscaPos patronEstrellas "9.9/5".data = none := by decide
    have h6 : buscaPos patronRating "9.9/5".data = none := by decide
    have h7 : buscaPos patronSlash10 "9.9/5".data = none := by decide
    have h8 : buscaPos patronDe10 "9.9/5".data = none := by decide
    rw [extraerNota]
    have hb5 : buscaLista patronesBase5 "9.9/5".data 1 = none := by
      simp only [patronesBase5, buscaLista, h1, h2, h3, h4, h5, h6]
      norm_num [valorGrupo]
    rw [hb5]
    simp only [patronesBase10, buscaLista, h7, h8]
  · intro cuerpo r h
    rw [extraerNota] at h
    cases hb : buscaLista patronesBase5 cuerpo.data 1 with
    | some nota =>
        rw [hb] at h
        cases h
        exact buscaLista_rango _ _ _ _ hb
    | none =>
        rw [hb] at h
        exact buscaLista_rango _ _ _ _ h

theorem extraccion_patrones_reputacion_witness :
    0 ≤ (45/10 : ℚ) ∧ (45/10 : ℚ) ≤ 5 :=
  extraccion_patrones_reputacion.2.2.2 "Valoración: 4,5 sobre 5" (45/10)
    extraccion_patrones_reputacion.1

/-! ### Aggregation per candidate (analizar_reputacion, lines 176-242) -/

/-- Line 36: UMBRAL_BUENO = 3.8. -/
def UMBRAL_BUENO : ℚ := 38/10

def esPrefijoDe : List Char → List Char → Bool
  | [], _ => true
  | _ :: _, [] => false
  | a :: as, b :: bs => a = b ∧ esPrefijoDe as bs

/-- Python substring test: sub in s. -/
def apareceEn (sub : List Char) : List Char → Bool
  | [] => sub.isEmpty
  | c :: s' => esPrefijoDe sub (c :: s') || apareceEn sub s'

/-- Lines 199-208: the guards applied to one competitor entry and the rating
lookup.  An entry is a tuple; entries that are empty or shorter than 2, names
shorter than 2 characters and names containing Local are skipped (none). -/
def notaResuelta (pagina : String → Option String) (comp : List String) : Option ℚ :=
  if comp.length < 2 then none
  else
    let nombre := comp.headD ""
    let cp := (comp.drop 1).headD ""
    if nombre.length < 2 ∨ apareceEn "Local".data nombre.data then none
    else buscarNotaDuckduckgo pagina nombre cp

/-- Lines 210-216: accumulator update for one competitor.  The accumulator is
(buenos, malos, suma_notas, con_nota). -/
def pasoReputacion (pagina : String → Option String)
    (acc : ℕ × ℕ × ℚ × ℕ) (comp : List String) : ℕ × ℕ × ℚ × ℕ :=
  match notaResuelta pagina comp with
  | none => acc
  | some nota =>
      if UMBRAL_BUENO < nota then
        (acc.1 + 1, acc.2.1, acc.2.2.1 + nota, acc.2.2.2 + 1)
      else
        (acc.1, acc.2.1 + 1, acc.2.2.1 + nota, acc.2.2.2 + 1)

/-- Lines 189-224: the CompetitionMetrics tuple
(total, buenos, malos, nota_media) produced for one candidate row. -/
def metricasFila (pagina : String → Option String)
    (listaCompetidores : List (List String)) : ℕ × ℕ × ℕ × ℚ :=
  let total := listaCompetidores.length
  let acc := listaCompetidores.foldl (pasoReputacion pagina) (0, 0, 0, 0)
  let notaMedia := if 0 < acc.2.2.2 then round2 (acc.2.2.1 / (acc.2.2.2 : ℚ)) else 0
  (total, acc.1, acc.2.1, notaMedia)

/-- The multiset of resolved ratings of a competitor list. -/
def notasResueltas (pagina : String → Option String)
    (lista : List (List String)) : List ℚ :=
  lista.filterMap (notaResuelta pagina)

def esBuenoB (pagina : String → Option String) (comp : List String) : Bool :=
  match notaResuelta pagina comp with
  | some r => UMBRAL_BUENO < r
  | none => false

def esMaloB (pagina : String → Option String) (comp : List String) : Bool :=
  match notaResuelta pagina comp with
  | some r => r ≤ UMBRAL_BUENO
  | none => false

theorem foldl_pasoReputacion (pagina : String → Option String)
    (lista : List (List String)) (b m : ℕ) (s : ℚ) (c : ℕ) :
    lista.foldl (pasoReputacion pagina) (b, m, s, c)
      = (b + lista.countP (esBuenoB pagina), m + lista.countP (esMaloB pagina),
         s + (notasResueltas pagina lista).sum,
         c + (notasResueltas pagina lista).length) := by
  induction lista generalizing b m s c with
  | nil => simp [notasResueltas]
  | cons comp resto ih =>
      rw [List.foldl_cons]
      cases hn : notaResuelta pagina comp with
      | none =>
          rw [pasoReputacion, hn]
          rw [ih b m s c]
          simp [notasResueltas, List.countP_cons, esBuenoB, esMaloB, hn,
            List.filterMap_cons]
      | some nota =>
          rw [pasoReputacion, hn]
          dsimp only
          by_cases hcmp : UMBRAL_BUENO < nota
          · rw [if_pos hcmp]
            rw [ih (b + 1) m (s + nota) (c + 1)]
            have hbomba : esBuenoB pagina comp = true := by
              rw [esBuenoB, hn]; simpa using hcmp
            have hmala : esMaloB pagina comp = false := by
              rw [esMaloB, hn]; simpa using hcmp
            simp only [notasResueltas, List.countP_cons, hbomba, hmala,
              List.filterMap_cons, hn]
            refine Prod.ext ?_ (Prod.ext ?_ (Prod.ext ?_ ?_)) <;>
              simp [List.sum_cons] <;> ring
          · rw [if_neg hcmp]
            rw [ih b (m + 1) (s + nota) (c + 1)]
            have hbomba : esBuenoB pagina comp = false := by
              rw [esBuenoB, hn]; simpa using hcmp
            have hmala : esMaloB pagina comp = true := by
              rw [esMaloB, hn]; simpa using not_lt.mp hcmp
            simp only [notasResueltas, List.countP_cons, hbomba, hmala,
              List.filterMap_cons, hn]
            refine Prod.ext ?_ (Prod.ext ?_ (Prod.ext ?_ ?_)) <;>
              simp [List.sum_cons] <;> ring

theorem countP_buenos_malos (pagina : String → Option String)
    (lista : List (List String)) :
    lista.countP (esBuenoB pagina) + lista.countP (esMaloB pagina)
      = (notasResueltas pagina lista).length := by
  simp only [notasResueltas]
  induction lista with
  | nil => simp
  | cons comp resto ih =>
      rw [List.countP_cons, List.countP_cons, List.filterMap_cons]
      cases hn : notaResuelta pagina comp with
      | none =>
          have hb : esBuenoB pagina comp = false := by rw [esBuenoB, hn]
          have hm : esMaloB pagina comp = false := by rw [esMaloB, hn]
          simp only [hb, hm]
          simpa using ih
      | some r =>
          by_cases h : UMBRAL_BUENO < r
          · have hb : esBuenoB pagina comp = true := by
              rw [esBuenoB, hn]; simpa using h
            have hm : esMaloB pagina comp = false := by
              rw [esMaloB, hn]; simpa using h
            simp [hb, hm]
            omega
          · have hb : esBuenoB pagina comp = false := by
              rw [esBuenoB, hn]; simpa using h
            have hm : esMaloB pagina comp = true := by
              rw [esMaloB, hn]; simpa using not_lt.mp h
            simp [hb, hm]
            omega

def listaC2 : List (List String) :=
  [["Bar Pepe", "28001"], ["Casa Ana", "28001"], ["Rincon Azul", "28001"]]

def paginaC2 : String → Option String := fun q =>
  if q = "Bar Pepe 28001 opiniones" then some "Rating: 4,0"
  else if q = "Casa Ana 28001 opiniones" then some "Rating: 4,0"
  else if q = "Rincon Azul 28001 opiniones" then some "Rating: 4,1"
  else none

theorem extrae_rating_40 : extraerNota "Rating: 4,0" = some 4 := by
  have h1 : buscaPos patronSlash5 "Rating: 4,0".data = none := by decide
  have h2 : buscaPos patronDe5 "Rating: 4,0".data = none := by decide
  have h3 : buscaPos patronPuntuacion "Rating: 4,0".data = none := by decide
  have h4 : buscaPos patronValoracion "Rating: 4,0".data = none := by decide
  have h5 : buscaPos patronEstrellas "Rating: 4,0".data = none := by decide
  have h6 : buscaPos patronRating "Rating: 4,0".data = some [4, 0] := by decide
  rw [extraerNota]
  have hb : buscaLista patronesBase5 "Rating: 4,0".data 1 = some 4 := by
    simp only [patronesBase5, buscaLista, h1, h2, h3, h4, h5, h6]
    norm_num [valorGrupo]
  rw [hb]

theorem extrae_rating_41 : extraerNota "Rating: 4,1" = some (41/10) := by
  have h1 : buscaPos patronSlash5 "Rating: 4,1".data = none := by decide
  have h2 : buscaPos patronDe5 "Rating: 4,1".data = none := by decide
  have h3 : buscaPos patronPuntuacion "Rating: 4,1".data = none := by decide
  have h4 : buscaPos patronValoracion "Rating: 4,1".data = none := by decide
  have h5 : buscaPos patronEstrellas "Rating: 4,1".data = none := by decide
  have h6 : buscaPos patronRating "Rating: 4,1".data = some [4, 1] := by decide
  rw [extraerNota]
  have hb : buscaLista patronesBase5 "Rating: 4,1".data 1 = some (41/10) := by
    simp only [patronesBase5, buscaLista, h1, h2, h3, h4, h5, h6]
    norm_num [valorGrupo]
  rw [hb]

theorem nota_bar_pepe : notaResuelta paginaC2 ["Bar Pepe", "28001"] = some 4 := by
  rw [notaResuelta]
  rw [if_neg (by decide)]
  dsimp only
  rw [if_neg (by decide)]
  rw [buscarNotaDuckduckgo]
  rw [show (["Bar Pepe", "28001"].headD "") = "Bar Pepe" from rfl]
  rw [show ((List.drop 1 ["Bar Pepe", "28001"]).headD "") = "28001" from rfl]
  have hl : limpiarNombreBusqueda "Bar Pepe" = "Bar Pepe" := by decide
  rw [hl]
  have hq : ("Bar Pepe" ++ " " ++ "28001" ++ " opiniones")
      = "Bar Pepe 28001 opiniones" := by decide
  rw [hq]
  have hp : paginaC2 "Bar Pepe 28001 opiniones" = some "Rating: 4,0" := by
    rw [paginaC2]; rw [if_pos rfl]
  rw [hp]
  exact extrae_rating_40

theorem nota_casa_ana : notaResuelta paginaC2 ["Casa Ana", "28001"] = some 4 := by
  rw [notaResuelta]
  rw [if_neg (by decide)]
  dsimp only
  rw [if_neg (by decide)]
  rw [buscarNotaDuckduckgo]
  rw [show (["Casa Ana", "28001"].headD "") = "Casa Ana" from rfl]
  rw [show ((List.drop 1 ["Casa Ana", "28001"]).headD "") = "28001" from rfl]
  have hl : limpiarNombreBusqueda "Casa Ana" = "Casa Ana" := by decide
  rw [hl]
  have hq : ("Casa Ana" ++ " " ++ "28001" ++ " opiniones")
      = "Casa Ana 28001 opiniones" := by decide
  rw [hq]
  have hp : paginaC2 "Casa Ana 28001 opiniones" = some "Rating: 4,0" := by
    rw [paginaC2]
    rw [if_neg (by decide)]
    rw [if_pos rfl]
  rw [hp]
  exact extrae_rating_40

theorem nota_rincon : notaResuelta paginaC2 ["Rincon Azul", "28001"] = some (41/10) := by
  rw [notaResuelta]
  rw [if_neg (by decide)]
  dsimp only
  rw [if_neg (by decide)]
  rw [buscarNotaDuckduckgo]
  rw [show (["Rincon Azul", "28001"].headD "") = "Rincon Azul" from rfl]
  rw [show ((List.drop 1 ["Rincon Azul", "28001"]).headD "") = "28001" from rfl]
  have hl : limpiarNombreBusqueda "Rincon Azul" = "Rincon Azul" := by decide
  rw [hl]
  have hq : ("Rincon Azul" ++ " " ++ "28001" ++ " opiniones")
      = "Rincon Azul 28001 opiniones" := by decide
  rw [hq]
  have hp : paginaC2 "Rincon Azul 28001 opiniones" = some "Rating: 4,1" := by
    rw [paginaC2]
    rw [if_neg (by decide)]
    rw [if_neg (by decide)]
    rw [if_pos rfl]
  rw [hp]
  exact extrae_rating_41

/-- C2 counterexample: with three resolvable competitors rated 4.0, 4.0 and
4.1 the stored mean is 4.03, the 2-decimal rounding of 121/30, which differs
from the exact average of the resolved ratings, so the mean component of the
claim fails as stated. -/
theorem reputacion_media_contraejemplo :
    metricasFila paginaC2 listaC2 = (3, 3, 0, 403/100) ∧
    (403/100 : ℚ) ≠ (4 + 4 + 41/10) / 3 := by
  constructor
  · have s1 : pasoReputacion paginaC2 (0, 0, 0, 0) ["Bar Pepe", "28001"]
        = (1, 0, 4, 1) := by
      rw [pasoReputacion, nota_bar_pepe]
      dsimp only
      rw [if_pos (by norm_num [UMBRAL_BUENO])]
      norm_num
    have s2 : pasoReputacion paginaC2 (1, 0, 4, 1) ["Casa Ana", "28001"]
        = (2, 0, 8, 2) := by
      rw [pasoReputacion, nota_casa_ana]
      dsimp only
      rw [if_pos (by norm_num [UMBRAL_BUENO])]
      norm_num
    have s3 : pasoReputacion paginaC2 (2, 0, 8, 2) ["Rincon Azul", "28001"]
        = (3, 0, 121/10, 3) := by
      rw [pasoReputacion, nota_rincon]
      dsimp only
      rw [if_pos (by norm_num [UMBRAL_BUENO])]
      norm_num
    have hfold : listaC2.foldl (pasoReputacion paginaC2) (0, 0, 0, 0)
        = (3, 0, 121/10, 3) := by
      rw [listaC2, List.foldl_cons, s1, List.foldl_cons, s2, List.foldl_cons,
        s3, List.foldl_nil]
    rw [metricasFila, hfold]
    dsimp only
    rw [if_pos (by norm_num)]
    have hmedia : round2 ((121/10 : ℚ) / (3 : ℕ)) = 403/100 := by
      norm_num [round2, round_eq]
    rw [hmedia]
    rw [listaC2]
    rfl
  · norm_num

/-- C2 (amended): for every candidate the produced tuple is
(total, good, bad, mean) with total the competitor-list length, good the
number of resolved ratings above 3.8, bad the number of resolved ratings at
most 3.8, mean the 2-decimal rounding of the average of the resolved ratings
(0 when none resolved), and good + bad never exceeds total. -/
theorem reputacion_metricas_correctas (pagina : String → Option String)
    (lista : List (List String)) :
    metricasFila pagina lista
      = (lista.length, lista.countP (esBuenoB pagina),
         lista.countP (esMaloB pagina),
         if (notasResueltas pagina lista).length ≠ 0 then
           round2 ((notasResueltas pagina lista).sum
             / ((notasResueltas pagina lista).length : ℚ))
         else 0) ∧
    lista.countP (esBuenoB pagina) + lista.countP (esMaloB pagina)
      ≤ lista.length := by
  have hfold := foldl_pasoReputacion pagina lista 0 0 0 0
  simp only [zero_add] at hfold
  constructor
  · rw [metricasFila]
    rw [hfold]
    dsimp only
    simp only [Nat.pos_iff_ne_zero]
  · rw [countP_buenos_malos]
    exact List.length_filterMap_le _ _

/-! ## Competitor finder and transport resolver row steps
(p2_competencia.py lines 310-338, p4_transporte.py lines 239-264)

Each per-row step is embedded together with the list of spatial queries it
issues, so that the sentinel-coordinate claim can talk about which centers
are ever sent to the external services.  The COORDENADAS cell is modelled as
the list of components of the Python tuple. -/

/-- One spatial query sent to an external service, with its center. -/
inductive Consulta where
  | inversaCp : ℚ → ℚ → Consulta
  | overpassCompetencia : ℚ → ℚ → Consulta
  | overpassTransporte : ℚ → ℚ → Consulta
deriving DecidableEq

/-- Lines 310-334 of p2_competencia.py: one row of busqueda_competencia.
cpDe is the ArcGIS reverse geocoder of obtener_cp_latlon and competenciaDe
the Overpass lookup of obtener_competencia (both total: their internal error
handling returns "00000" / [] instead of failing).  The row only checks that
the cell is a tuple or list of length at least 2 — there is no check against
the (0,0) sentinel — then always reverse-geocodes (lat, lon) and, when a
business keyword is given, queries competitors around (lat, lon). -/
def filaCompetencia (cpDe : ℚ → ℚ → String)
    (competenciaDe : ℚ → ℚ → String → List (String × String))
    (negocio : String) (coords : List ℚ) :
    (String × List (String × String)) × List Consulta :=
  if coords.length < 2 then (("00000", []), [])
  else
    let lat := coords.headD 0
    let lon := (coords.drop 1).headD 0
    let cpZona := cpDe lat lon
    if negocio ≠ "" then
      ((cpZona, competenciaDe lat lon cpZona),
       [Consulta.inversaCp lat lon, Consulta.overpassCompetencia lat lon])
    else
      ((cpZona, []), [Consulta.inversaCp lat lon])

/-- Line 35 of p4_transporte.py: RADIO_BICIS = 300. -/
def RADIO_BICIS : ℚ := 300

/-- Lines 239-261 of p4_transporte.py: one row of analizar_transporte.
osmDe is the Overpass counter contar_osm and distancia the haversine
distance (real-valued in the code, hence an oracle).  A cell that is not a
pair or that equals the (0, 0) sentinel is zero-filled with (0, 0, 0) and no
query is issued for it. -/
def filaTransporte (osmDe : ℚ → ℚ → ℕ × ℕ)
    (distancia : ℚ → ℚ → ℚ → ℚ → ℚ) (estacionesBicis : List (ℚ × ℚ))
    (coords : List ℚ) : (ℕ × ℕ × ℕ) × List Consulta :=
  if coords.length < 2 ∨ coords = [0, 0] then ((0, 0, 0), [])
  else
    let lat := coords.headD 0
    let lon := (coords.drop 1).headD 0
    let conteo := osmDe lat lon
    let nBicis := (estacionesBicis.filter
      (fun est => distancia lat lon est.1 est.2 ≤ RADIO_BICIS)).length
    ((conteo.1, conteo.2, nBicis), [Consulta.overpassTransporte lat lon])

def cpC4 : ℚ → ℚ → String := fun _ _ => "28001"

def compC4 : ℚ → ℚ → String → List (String × String) :=
  fun _ _ cp => [("Pizzeria Roma", cp)]

/-- C4 counterexample: on a row whose coordinates are the sentinel (0, 0),
busqueda_competencia issues its reverse-geocode query centered at (0, 0) and
its competitor search centered at (0, 0), and stores the looked-up postal
code and competitor list instead of the defaults — the Competitor Finder
stage neither skips nor zero-fills the sentinel. -/
theorem sentinela_competencia_contraejemplo :
    (filaCompetencia cpC4 compC4 "pizzeria" [0, 0]).2
      = [Consulta.inversaCp 0 0, Consulta.overpassCompetencia 0 0] ∧
    (filaCompetencia cpC4 compC4 "pizzeria" [0, 0]).1
      = ("28001", [("Pizzeria Roma", "28001")]) := by
  constructor <;>
    simp [filaCompetencia, cpC4, compC4]

/-- C4 (amended): a sentinel-coordinate row is zero-filled to (0, 0, 0) by
the Transport Network Resolver, which issues no spatial query for it; the
Competitor Finder, however, performs no sentinel check and always issues its
reverse-geocode query centered at (0, 0) on such a row. -/
theorem sentinela_coordenadas (osmDe : ℚ → ℚ → ℕ × ℕ)
    (distancia : ℚ → ℚ → ℚ → ℚ → ℚ) (estacionesBicis : List (ℚ × ℚ))
    (cpDe : ℚ → ℚ → String)
    (competenciaDe : ℚ → ℚ → String → List (String × String))
    (negocio : String) :
    filaTransporte osmDe distancia estacionesBicis [0, 0] = ((0, 0, 0), []) ∧
    Consulta.inversaCp 0 0 ∈ (filaCompetencia cpDe competenciaDe negocio [0, 0]).2 := by
  constructor
  · rw [filaTransporte, if_pos (Or.inr rfl)]
  · rw [filaCompetencia, if_neg (by norm_num)]
    dsimp only
    by_cases h : negocio ≠ ""
    · rw [if_pos h]
      exact List.mem_cons_self _ _
    · rw [if_neg h]
      exact List.mem_cons_self _ _

/-! ## Geocode resolver (p1_busqueda_local.py, geocodificar_inteligente,
lines 98-133)

The two providers are oracles taking the query string and the timeout in
seconds; none models both an exception and a falsy result.  The returned
trace records every geocoding attempt in issue order. -/

inductive Proveedor where
  | arcgis : Proveedor
  | osm : Proveedor
deriving DecidableEq

structure Intento where
  proveedor : Proveedor
  consulta : String
  plazo : ℕ
deriving DecidableEq

def esEspacioComa (c : Char) : Bool := c = ' ' ∨ c = ','

/-- Python strip(" ,"): remove leading and trailing spaces and commas. -/
def recortaEspacioComa (cs : List Char) : List Char :=
  ((cs.dropWhile esEspacioComa).reverse.dropWhile esEspacioComa).reverse

/-- Line 125: re.sub removing the digits 0-9, then strip(" ,"). -/
def soloLetrasDe (direccion : String) : String :=
  String.mk (recortaEspacioComa (direccion.data.filter (fun c => ¬ esDigito c)))

/-- Lines 98-133, geocodificar_inteligente: the two queries
"direccion, ciudad, España" and "direccion, España" are tried against ArcGIS
(strategy A), then against Nominatim/OSM (strategy B), each with timeout 5;
as a last resort the digit-stripped address, when longer than 3 characters,
is retried against ArcGIS with timeout 3 (strategy C); otherwise the
sentinel (0, 0) is returned.  The first success wins. -/
def geocodificarInteligente (geoArcgis geoOsm : String → ℕ → Option (ℚ × ℚ))
    (direccion ciudad : String) : (ℚ × ℚ) × List Intento :=
  let q1 := direccion ++ ", " ++ ciudad ++ ", España"
  let q2 := direccion ++ ", España"
  match geoArcgis q1 5 with
  | some loc => (loc, [⟨Proveedor.arcgis, q1, 5⟩])
  | none =>
    match geoArcgis q2 5 with
    | some loc => (loc, [⟨Proveedor.arcgis, q1, 5⟩, ⟨Proveedor.arcgis, q2, 5⟩])
    | none =>
      match geoOsm q1 5 with
      | some loc =>
          (loc, [⟨Proveedor.arcgis, q1, 5⟩, ⟨Proveedor.arcgis, q2, 5⟩,
                 ⟨Proveedor.osm, q1, 5⟩])
      | none =>
        match geoOsm q2 5 with
        | some loc =>
            (loc, [⟨Proveedor.arcgis, q1, 5⟩, ⟨Proveedor.arcgis, q2, 5⟩,
                   ⟨Proveedor.osm, q1, 5⟩, ⟨Proveedor.osm, q2, 5⟩])
        | none =>
          let previos := [⟨Proveedor.arcgis, q1, 5⟩, ⟨Proveedor.arcgis, q2, 5⟩,
                          ⟨Proveedor.osm, q1, 5⟩, (⟨Proveedor.osm, q2, 5⟩ : Intento)]
          let soloLetras := soloLetrasDe direccion
          if 3 < soloLetras.length then
            let qBackup := soloLetras ++ ", " ++ ciudad ++ ", España"
            match geoArcgis qBackup 3 with
            | some loc => (loc, previos ++ [⟨Proveedor.arcgis, qBackup, 3⟩])
            | none => ((0, 0), previos ++ [⟨Proveedor.arcgis, qBackup, 3⟩])
          else ((0, 0), previos)

/-- C7: for the address Calle Falsa 123 in Springfield, when both queries
fail on both providers, the digit-stripped query Calle Falsa, Springfield,
España is still attempted against the primary provider with the shorter
timeout 3 before anything is returned; the attempts happen exactly in the
tier order of the claim, and the sentinel (0, 0) is returned only if that
last attempt also fails. -/
theorem geocodificacion_escalonada (geoArcgis geoOsm : String → ℕ → Option (ℚ × ℚ))
    (h1 : geoArcgis "Calle Falsa 123, Springfield, España" 5 = none)
    (h2 : geoArcgis "Calle Falsa 123, España" 5 = none)
    (h3 : geoOsm "Calle Falsa 123, Springfield, España" 5 = none)
    (h4 : geoOsm "Calle Falsa 123, España" 5 = none) :
    (geocodificarInteligente geoArcgis geoOsm "Calle Falsa 123" "Springfield").2
      = [⟨Proveedor.arcgis, "Calle Falsa 123, Springfield, España", 5⟩,
         ⟨Proveedor.arcgis, "Calle Falsa 123, España", 5⟩,
         ⟨Proveedor.osm, "Calle Falsa 123, Springfield, España", 5⟩,
         ⟨Proveedor.osm, "Calle Falsa 123, España", 5⟩,
         ⟨Proveedor.arcgis, "Calle Falsa, Springfield, España", 3⟩] ∧
    (geocodificarInteligente geoArcgis geoOsm "Calle Falsa 123" "Springfield").1
      = (geoArcgis "Calle Falsa, Springfield, España" 3).getD (0, 0) := by
  have hsolo : soloLetrasDe "Calle Falsa 123" = "Calle Falsa" := by decide
  have hq1 : ("Calle Falsa 123" ++ ", " ++ "Springfield" ++ ", España")
      = "Calle Falsa 123, Springfield, España" := by decide
  have hq2 : ("Calle Falsa 123" ++ ", España")
      = "Calle Falsa 123, España" := by decide
  have hqb : ("Calle Falsa" ++ ", " ++ "Springfield" ++ ", España")
      = "Calle Falsa, Springfield, España" := by decide
  rw [geocodificarInteligente]
  rw [hq1, hq2, h1, h2, h3, h4]
  dsimp only
  rw [hsolo, hqb]
  rw [if_pos (by decide)]
  cases hb : geoArcgis "Calle Falsa, Springfield, España" 3 with
  | some loc => exact ⟨rfl, rfl⟩
  | none => exact ⟨rfl, rfl⟩

theorem geocodificacion_escalonada_witness :
    (geocodificarInteligente (fun _ _ => none) (fun _ _ => none)
        "Calle Falsa 123" "Springfield").2
      = [⟨Proveedor.arcgis, "Calle Falsa 123, Springfield, España", 5⟩,
         ⟨Proveedor.arcgis, "Calle Falsa 123, España", 5⟩,
         ⟨Proveedor.osm, "Calle Falsa 123, Springfield, España", 5⟩,
         ⟨Proveedor.osm, "Calle Falsa 123, España", 5⟩,
         ⟨Proveedor.arcgis, "Calle Falsa, Springfield, España", 3⟩] ∧
    (geocodificarInteligente (fun _ _ => none) (fun _ _ => none)
        "Calle Falsa 123" "Springfield").1
      = ((fun (_ : String) (_ : ℕ) => (none : Option (ℚ × ℚ)))
          "Calle Falsa, Springfield, España" 3).getD (0, 0) :=
  geocodificacion_escalonada (fun _ _ => none) (fun _ _ => none) rfl rfl rfl rfl

/-! ## Candidate collector (p1_busqueda_local.py, busqueda, lines 135-315)

The browser/DOM glue that yields one listing card is out of scope (spec
section 1); a card is modelled by its extracted fields with the address
already cleaned by limpiar_direccion (the Address Normalizer).  From there
the embedding follows lines 247-315: price-digit extraction, the
0 < price ≤ budget filter, geocoding, the geocode-sentinel filter, the
insertion-ordered dict keyed by title, and the final DataFrame rows. -/

structure Tarjeta where
  titulo : String
  enlaceRelativo : String
  textoPrecio : String
  direccionLimpia : String
deriving DecidableEq

structure Anuncio where
  nombre : String
  direccion : String
  precio : ℤ
  coords : ℚ × ℚ
  link : String
deriving DecidableEq

/-- Line 263: "".join(filter(str.isdigit, texto_precio)). -/
def digitosDe (s : String) : List Char := s.data.filter esDigito

def valorDigitos (cs : List Char) : ℤ :=
  cs.foldl (fun acc c => 10 * acc + ((c.toNat : ℤ) - 48)) 0

/-- Lines 256-264: precio_num is 0 unless the price text contains digits. -/
def precioNumDe (textoPrecio : String) : ℤ :=
  if (digitosDe textoPrecio).isEmpty then 0 else valorDigitos (digitosDe textoPrecio)

/-- Python dict membership: titulo in resultados_dict. -/
def diccTiene (d : List (String × Anuncio)) (k : String) : Bool :=
  d.any (fun par => par.1 = k)

/-- Python dict assignment: overwrite in place if the key exists, else append
(insertion order preserved). -/
def diccPon (d : List (String × Anuncio)) (k : String) (v : Anuncio) :
    List (String × Anuncio) :=
  if diccTiene d k then d.map (fun par => if par.1 = k then (k, v) else par)
  else d ++ [(k, v)]

/-- Lines 247-288: processing of the card at position i against the current
dict.  The card survives only if 0 < precio_num <= presupuesto_max and its
geocoded coordinates have lat != 0.0 and lon != 0.0. -/
def procesaTarjeta (geoArcgis geoOsm : String → ℕ → Option (ℚ × ℚ))
    (ciudad : String) (presupuestoMax : ℤ) (d : List (String × Anuncio))
    (i : ℕ) (t : Tarjeta) : List (String × Anuncio) :=
  let linkCompleto := "https://www.pisos.com" ++ t.enlaceRelativo
  let precioNum := precioNumDe t.textoPrecio
  if 0 < precioNum ∧ precioNum ≤ presupuestoMax then
    let coords := (geocodificarInteligente geoArcgis geoOsm t.direccionLimpia ciudad).1
    if coords.1 ≠ 0 ∧ coords.2 ≠ 0 then
      let clave := if diccTiene d t.titulo then t.titulo ++ "_" ++ toString i
                   else t.titulo
      diccPon d clave
        ⟨t.titulo, t.direccionLimpia, precioNum, coords, linkCompleto⟩
    else d
  else d

def recorreTarjetas (geoArcgis geoOsm : String → ℕ → Option (ℚ × ℚ))
    (ciudad : String) (presupuestoMax : ℤ) :
    List (String × Anuncio) → ℕ → List Tarjeta → List (String × Anuncio)
  | d, _, [] => d
  | d, i, t :: ts =>
      recorreTarjetas geoArcgis geoOsm ciudad presupuestoMax
        (procesaTarjeta geoArcgis geoOsm ciudad presupuestoMax d i t) (i + 1) ts

/-- Lines 299-315: the DataFrame rows, in dict insertion order. -/
def busquedaFiltra (geoArcgis geoOsm : String → ℕ → Option (ℚ × ℚ))
    (ciudad : String) (presupuestoMax : ℤ) (tarjetas : List Tarjeta) :
    List Anuncio :=
  (recorreTarjetas geoArcgis geoOsm ciudad presupuestoMax [] 0 tarjetas).map Prod.snd

def propAnuncio (presupuestoMax : ℤ) (a : Anuncio) : Prop :=
  0 < a.precio ∧ a.precio ≤ presupuestoMax ∧ a.coords.1 ≠ 0 ∧ a.coords.2 ≠ 0

theorem diccPon_preserva {P : Anuncio → Prop} {d : List (String × Anuncio)}
    (hd : ∀ par ∈ d, P par.2) {k : String} {v : Anuncio} (hv : P v) :
    ∀ par ∈ diccPon d k v, P par.2 := by
  intro par hpar
  rw [diccPon] at hpar
  by_cases hk : diccTiene d k
  · rw [if_pos hk] at hpar
    obtain ⟨q, hq, hqe⟩ := List.mem_map.mp hpar
    by_cases hq1 : q.1 = k
    · rw [if_pos hq1] at hqe
      exact hqe ▸ hv
    · rw [if_neg hq1] at hqe
      exact hqe ▸ hd q hq
  · rw [if_neg hk] at hpar
    rcases List.mem_append.mp hpar with h | h
    · exact hd par h
    · rw [List.mem_singleton.mp h]
      exact hv

theorem procesaTarjeta_preserva (geoArcgis geoOsm : String → ℕ → Option (ℚ × ℚ))
    (ciudad : String) (presupuestoMax : ℤ) (d : List (String × Anuncio))
    (i : ℕ) (t : Tarjeta)
    (hd : ∀ par ∈ d, propAnuncio presupuestoMax par.2) :
    ∀ par ∈ procesaTarjeta geoArcgis geoOsm ciudad presupuestoMax d i t,
      propAnuncio presupuestoMax par.2 := by
  intro par hpar
  rw [procesaTarjeta] at hpar
  dsimp only at hpar
  by_cases hp : 0 < precioNumDe t.textoPrecio ∧
      precioNumDe t.textoPrecio ≤ presupuestoMax
  · rw [if_pos hp] at hpar
    by_cases hc : ((geocodificarInteligente geoArcgis geoOsm
        t.direccionLimpia ciudad).1).1 ≠ 0 ∧
        ((geocodificarInteligente geoArcgis geoOsm t.direccionLimpia ciudad).1).2 ≠ 0
    · rw [if_pos hc] at hpar
      refine diccPon_preserva hd ?_ par hpar
      exact ⟨hp.1, hp.2, hc.1, hc.2⟩
    · rw [if_neg hc] at hpar
      exact hd par hpar
  · rw [if_neg hp] at hpar
    exact hd par hpar

theorem recorreTarjetas_preserva (geoArcgis geoOsm : String → ℕ → Option (ℚ × ℚ))
    (ciudad : String) (presupuestoMax : ℤ) (tarjetas : List Tarjeta)
    (d : List (String × Anuncio)) (i : ℕ)
    (hd : ∀ par ∈ d, propAnuncio presupuestoMax par.2) :
    ∀ par ∈ recorreTarjetas geoArcgis geoOsm ciudad presupuestoMax d i tarjetas,
      propAnuncio presupuestoMax par.2 := by
  induction tarjetas generalizing d i with
  | nil => exact hd
  | cons t ts ih =>
      rw [recorreTarjetas]
      exact ih _ _ (procesaTarjeta_preserva geoArcgis geoOsm ciudad
        presupuestoMax d i t hd)

/-- C10: every row of the candidate DataFrame returned by busqueda has a
price strictly greater than 0 and at most the budget, and coordinates with
latitude and longitude both nonzero — listings whose geocoding fails are
dropped, so the (0, 0) sentinel never reaches the downstream stages. -/
theorem busqueda_filtra_precio_y_coordenadas
    (geoArcgis geoOsm : String → ℕ → Option (ℚ × ℚ)) (ciudad : String)
    (presupuestoMax : ℤ) (tarjetas : List Tarjeta) (a : Anuncio)
    (ha : a ∈ busquedaFiltra geoArcgis geoOsm ciudad presupuestoMax tarjetas) :
    0 < a.precio ∧ a.precio ≤ presupuestoMax ∧
      a.coords.1 ≠ 0 ∧ a.coords.2 ≠ 0 := by
  rw [busquedaFiltra] at ha
  obtain ⟨par, hpar, rfl⟩ := List.mem_map.mp ha
  exact recorreTarjetas_preserva geoArcgis geoOsm ciudad presupuestoMax
    tarjetas [] 0 (by intro q hq; cases hq) par hpar

def geoW10 : String → ℕ → Option (ℚ × ℚ) := fun _ _ => some (1, 2)

def tarjetaW10 : Tarjeta := ⟨"Local en Centro", "/ficha/1", "1.200 €", "Calle Mayor 5"⟩

def anuncioW10 : Anuncio :=
  ⟨"Local en Centro", "Calle Mayor 5", 1200, (1, 2), "https://www.pisos.com/ficha/1"⟩

theorem busqueda_filtra_precio_y_coordenadas_witness :
    0 < anuncioW10.precio ∧ anuncioW10.precio ≤ (2000 : ℤ) ∧
      anuncioW10.coords.1 ≠ 0 ∧ anuncioW10.coords.2 ≠ 0 := by
  have hprecio : precioNumDe "1.200 €" = 1200 := by decide
  have hpaso : procesaTarjeta geoW10 geoW10 "Madrid" 2000 [] 0 tarjetaW10
      = [("Local en Centro", anuncioW10)] := by
    rw [procesaTarjeta]
    dsimp only
    rw [tarjetaW10]
    dsimp only
    rw [hprecio]
    rw [if_pos (by norm_num)]
    rw [if_pos (by constructor <;> norm_num [geocodificarInteligente, geoW10])]
    rw [diccPon]
    rw [if_neg (by decide)]
    simp [diccTiene, geocodificarInteligente, geoW10, anuncioW10]
  have hmem : anuncioW10 ∈ busquedaFiltra geoW10 geoW10 "Madrid" 2000 [tarjetaW10] := by
    rw [busquedaFiltra, recorreTarjetas, hpaso, recorreTarjetas]
    exact List.mem_map_of_mem Prod.snd (List.mem_singleton.mpr rfl)
  exact busqueda_filtra_precio_y_coordenadas geoW10 geoW10 "Madrid" 2000
    [tarjetaW10] anuncioW10 hmem

end BusinessExplorer
